import Mathlib

set_option autoImplicit false

namespace ZatoAMQP

/-! Shallow embedding of `src/code/zato-server/src/zato/server/connection/amqp/__init__.py`:
the `BaseAMQPConnection` reconnect classifier and session close, and the
`BaseAMQPConnector` control-message filter, definition handlers, transport
parameter builder, lock discipline and shutdown path. -/

/-- Linux value of `errno.ENETUNREACH`, as used in `BaseAMQPConnection.__init__`. -/
def ENETUNREACH : Nat := 101

/-- Linux value of `errno.ENETRESET`. -/
def ENETRESET : Nat := 102

/-- Linux value of `errno.ECONNABORTED`. -/
def ECONNABORTED : Nat := 103

/-- Linux value of `errno.ECONNRESET`. -/
def ECONNRESET : Nat := 104

/-- Linux value of `errno.ETIMEDOUT`. -/
def ETIMEDOUT : Nat := 110

/-- Linux value of `errno.ECONNREFUSED`. -/
def ECONNREFUSED : Nat := 111

/-- Linux value of `errno.EHOSTUNREACH`. -/
def EHOSTUNREACH : Nat := 113

/-- Errors observable by `BaseAMQPConnection._keep_connecting`: a Python
exception is a `TypeError`, an `EnvironmentError` carrying an errno, or an
instance of some other exception class. -/
inductive PyError where
  | typeError : PyError
  | environmentError (errno : Nat) : PyError
  | otherError : PyError
deriving DecidableEq

/-- The tuple `self.reconnect_error_numbers` assigned in
`BaseAMQPConnection.__init__` (lines 66-67 of the source). -/
def reconnect_error_numbers : List Nat :=
  [ENETUNREACH, ENETRESET, ECONNABORTED, ECONNRESET, ETIMEDOUT, ECONNREFUSED, EHOSTUNREACH]

/-- Embedding of `BaseAMQPConnection._keep_connecting`:
`isinstance(e, TypeError) or (isinstance(e, EnvironmentError) and e.errno in
self.reconnect_error_numbers)`. -/
def keep_connecting (e : PyError) : Bool :=
  match e with
  | .typeError => true
  | .environmentError n => decide (n ∈ reconnect_error_numbers)
  | .otherError => false

/-- Python string-like value used for the `host` field; the source applies the
builtin `str` to it to coerce a possibly-unicode value to a plain string. -/
inductive PyStrable where
  | pyStr (s : String)
  | pyUnicode (s : String)
deriving DecidableEq

/-- Embedding of the Python builtin `str` applied to a host value: the result
is always a plain (canonical) string carrying the same characters. -/
def pyStrFn : PyStrable → PyStrable
  | .pyStr s => .pyStr s
  | .pyUnicode s => .pyStr s

/-- The optional `credentials` sub-object a definition Bunch may carry,
consulted by `_amqp_conn_params`. -/
structure Credentials where
  username : String
  password : String
deriving DecidableEq

/-- The Bunch held in `self.def_amqp` after `_setup_odb` or after a definition
message has been applied: the active AMQP definition. `virtual_host` and
`credentials` are optional attributes tested with `in` by `_amqp_conn_params`. -/
structure Definition where
  id : Nat
  name : String
  host : PyStrable
  port : Nat
  vhost : String
  virtual_host : Option String
  credentials : Option Credentials
  username : String
  password : String
  heartbeat : Nat
  frame_max : Nat
deriving DecidableEq

/-- The body of a `DEFINITION_AMQP_EDIT` (or `CREATE`) control message: the
same attributes as a definition, with `password` optional — an edit message is
not required to carry one. -/
structure EditMsg where
  id : Nat
  name : String
  host : PyStrable
  port : Nat
  vhost : String
  virtual_host : Option String
  credentials : Option Credentials
  username : String
  password : Option String
  heartbeat : Nat
  frame_max : Nat
deriving DecidableEq

/-- The heartbeat attribute of pika's `ConnectionParameters`: its constructor
insists on a boolean, while the source later overwrites the attribute with an
integer by direct assignment. -/
inductive HeartbeatVal where
  | boolVal (b : Bool)
  | intVal (n : Nat)
deriving DecidableEq

/-- The transport parameters built by `_amqp_conn_params`, mirroring pika's
`ConnectionParameters` attributes that the source sets. -/
structure ConnParams where
  host : PyStrable
  port : Nat
  virtual_host : String
  credentials : String × String
  frame_max : Nat
  heartbeat : HeartbeatVal
deriving DecidableEq

/-- The `ConnectionParameters(...)` constructor call as made in
`_amqp_conn_params` (line 190): host, port, virtual host, credentials and
`frame_max` are passed; `heartbeat` is not, so the constructor leaves its
boolean default in place. -/
def connectionParametersCtor (host : PyStrable) (port : Nat) (vhost : String)
    (creds : String × String) (frame_max : Nat) : ConnParams :=
  { host := host, port := port, virtual_host := vhost, credentials := creds,
    frame_max := frame_max, heartbeat := .boolVal false }

/-- Embedding of `BaseAMQPConnector._amqp_conn_params` (lines 180-198): pick
`virtual_host` when present else `vhost`, credentials from the `credentials`
sub-object when present else the flat fields, construct the parameters, then
assign `heartbeat` directly after construction. -/
def amqp_conn_params (d : Definition) : ConnParams :=
  let vhost := match d.virtual_host with
    | some v => v
    | none => d.vhost
  let creds := match d.credentials with
    | some c => (c.username, c.password)
    | none => (d.username, d.password)
  let params := connectionParametersCtor d.host d.port vhost creds d.frame_max
  { params with heartbeat := .intVal d.heartbeat }

/-- A live connection session held in one of the registries. `generation`
distinguishes a recreated session from the one it replaced (fresh session
identity per registry entry). -/
structure Session where
  generation : Nat
  params : ConnParams
deriving DecidableEq

/-- The mutable state of a `BaseAMQPConnector`: the active definition, the
outgoing and inbound (channel) session registries, the ODB token and
connection, whether the owning process has been terminated, and a count of
publisher recreations for observability. -/
structure ConnectorState where
  def_amqp : Definition
  out_amqp : List (Nat × Session)
  channel_amqp : List (Nat × Session)
  odb_token : String
  odb_open : Bool
  terminated : Bool
  recreate_count : Nat
deriving DecidableEq

/-- Modelled from the spec: `_recreate_amqp_publisher` is implemented by the
concrete channel/outgoing subclasses, which are not part of this file. Per the
spec it closes every Connection Session in the Outgoing Registry and starts
new ones from the current Definition's derived transport parameters, and it
does not affect Inbound Registry sessions. -/
def recreate_amqp_publisher (st : ConnectorState) : ConnectorState :=
  { st with
    out_amqp := st.out_amqp.map
      (fun kv => (kv.1, { generation := kv.2.generation + 1,
                          params := amqp_conn_params st.def_amqp })),
    recreate_count := st.recreate_count + 1 }

/-- Embedding of `BaseAMQPConnector.on_broker_pull_msg_DEFINITION_AMQP_EDIT`
(lines 148-163): under the definition, outgoing and channel locks, save the
old password, replace `def_amqp` with the message, restore the old password,
coerce `host` with `str`, and recreate the publisher. -/
def on_broker_pull_msg_DEFINITION_AMQP_EDIT (st : ConnectorState) (msg : EditMsg) :
    ConnectorState :=
  let password := st.def_amqp.password
  let d : Definition :=
    { id := msg.id, name := msg.name, host := pyStrFn msg.host, port := msg.port,
      vhost := msg.vhost, virtual_host := msg.virtual_host,
      credentials := msg.credentials, username := msg.username,
      password := password, heartbeat := msg.heartbeat, frame_max := msg.frame_max }
  recreate_amqp_publisher { st with def_amqp := d }

/-- Embedding of
`BaseAMQPConnector.on_broker_pull_msg_DEFINITION_AMQP_CHANGE_PASSWORD`
(lines 170-178): under the three locks, overwrite only the password attribute
of `def_amqp`, then recreate the publisher. -/
def on_broker_pull_msg_DEFINITION_AMQP_CHANGE_PASSWORD (st : ConnectorState)
    (password : String) : ConnectorState :=
  recreate_amqp_publisher { st with def_amqp := { st.def_amqp with password := password } }

/-- A control-plane message as seen by `BaseAMQPConnector.filter`: its action
together with the fields the filter and handlers read. -/
inductive BrokerMsg where
  | amqpConnectorClose (odb_token : String)
  | defAmqpCreate (id : Nat)
  | defAmqpEdit (msg : EditMsg)
  | defAmqpDelete (id : Nat)
  | defAmqpChangePassword (id : Nat) (password : String)
  | otherAction
deriving DecidableEq

/-- Embedding of `BaseAMQPConnector.filter` (lines 123-133): accept a
`AMQP_CONNECTOR.CLOSE` message when its `odb_token` equals the connector's ODB
token; accept a `DEFINITION.AMQP_EDIT`, `AMQP_DELETE` or
`AMQP_CHANGE_PASSWORD` message when its `id` equals the active definition's
`id`; every other message falls through (a falsy `None` in Python). -/
def ConnectorState.filter (st : ConnectorState) (m : BrokerMsg) : Bool :=
  match m with
  | .amqpConnectorClose tok => st.odb_token == tok
  | .defAmqpEdit e => st.def_amqp.id == e.id
  | .defAmqpDelete i => st.def_amqp.id == i
  | .defAmqpChangePassword i _ => st.def_amqp.id == i
  | .defAmqpCreate _ => false
  | .otherAction => false

/-- The transport handle owned by a `BaseAMQPConnection` (pika's
`TornadoConnection`); `close` requests its orderly shutdown. -/
structure ConnHandle where
  closeRequested : Bool
deriving DecidableEq

/-- Embedding of the transport library's `conn.close()`: an orderly shutdown
request on the handle. -/
def ConnHandle.close (_c : ConnHandle) : ConnHandle :=
  { closeRequested := true }

/-- The session-local state of a `BaseAMQPConnection`: the current transport
handle, if any, and the current channel handle, if any. -/
structure BaseAMQPConnection where
  conn : Option ConnHandle
  channel : Option Nat
deriving DecidableEq

/-- Embedding of `BaseAMQPConnection._close` (lines 74-78):
`if self.conn: self.conn.close()`. -/
def BaseAMQPConnection.closeSession (s : BaseAMQPConnection) : BaseAMQPConnection :=
  match s.conn with
  | none => s
  | some c => { s with conn := some c.close }

/-- The three re-entrant locks `_init` creates: `def_amqp_lock`,
`out_amqp_lock` and `channel_amqp_lock`. -/
inductive LockId where
  | defLock
  | outLock
  | chanLock
deriving DecidableEq

/-- An acquire or release event on one of the connector's locks, as produced
by entering or leaving a `with` block in a handler. -/
inductive LockEvent where
  | acq (l : LockId)
  | rel (l : LockId)
deriving DecidableEq

/-- The fixed acquisition order: definition lock before outgoing registry lock
before inbound (channel) registry lock. -/
def lockRank : LockId → Nat
  | .defLock => 0
  | .outLock => 1
  | .chanLock => 2

/-- Checks a lock-event trace against the discipline, carrying the stack of
currently held locks: each acquire must out-rank every lock already held, the
outgoing and channel locks may only be taken while the definition lock is
held, releases must match the innermost held lock, and the trace must end
with every lock released. -/
def checkLockTrace : List LockEvent → List LockId → Bool
  | [], held => held.isEmpty
  | .acq l :: rest, held =>
      (match held with
       | [] => true
       | top :: _ => lockRank top < lockRank l) &&
      (l == .defLock || held.contains .defLock) &&
      checkLockTrace rest (l :: held)
  | .rel l :: rest, held =>
      match held with
      | top :: hs => top == l && checkLockTrace rest hs
      | [] => false

/-- Lock events of `on_broker_pull_msg_DEFINITION_AMQP_EDIT` (lines 151-163):
the definition lock, then the outgoing lock, then the channel lock, nested. -/
def lockTrace_DEFINITION_AMQP_EDIT : List LockEvent :=
  [.acq .defLock, .acq .outLock, .acq .chanLock, .rel .chanLock, .rel .outLock, .rel .defLock]

/-- Lock events of `on_broker_pull_msg_DEFINITION_AMQP_CHANGE_PASSWORD`
(lines 174-178): the same nesting as the edit handler. -/
def lockTrace_DEFINITION_AMQP_CHANGE_PASSWORD : List LockEvent :=
  [.acq .defLock, .acq .outLock, .acq .chanLock, .rel .chanLock, .rel .outLock, .rel .defLock]

/-- Lock events of `on_broker_pull_msg_DEFINITION_AMQP_CREATE` (lines
144-146): the definition lock alone. -/
def lockTrace_DEFINITION_AMQP_CREATE : List LockEvent :=
  [.acq .defLock, .rel .defLock]

/-- Lock events of `BaseAMQPConnector._close` (lines 219-225): the definition
lock, then the outgoing lock. -/
def lockTrace_connector_close : List LockEvent :=
  [.acq .defLock, .acq .outLock, .rel .outLock, .rel .defLock]

/-- Lock events of `on_broker_pull_msg_AMQP_CONNECTOR_CLOSE` (lines 136-139),
which delegates to `_close`. -/
def lockTrace_AMQP_CONNECTOR_CLOSE : List LockEvent :=
  lockTrace_connector_close

/-- Lock events of `on_broker_pull_msg_DEFINITION_AMQP_DELETE` (lines
165-168), which delegates to `_close`. -/
def lockTrace_DEFINITION_AMQP_DELETE : List LockEvent :=
  lockTrace_connector_close

/-- The lock traces of every broker-message handler of `BaseAMQPConnector`. -/
def allHandlerLockTraces : List (List LockEvent) :=
  [lockTrace_AMQP_CONNECTOR_CLOSE, lockTrace_DEFINITION_AMQP_CREATE,
   lockTrace_DEFINITION_AMQP_EDIT, lockTrace_DEFINITION_AMQP_DELETE,
   lockTrace_DEFINITION_AMQP_CHANGE_PASSWORD]

/-- The externally visible side effects of the shutdown path `_close`
(lines 215-225): stop the outgoing sessions, close the ODB connection, then
terminate the owning process. -/
inductive ProcAction where
  | stopOutgoing
  | odbClose
  | terminateProcess
deriving DecidableEq

/-- Embedding of `BaseAMQPConnector._close` (lines 215-225): stop the
outgoing connection (`_stop_amqp_connection` is abstract in this class and is
modelled from the spec as stopping every outgoing session), close the ODB
connection, then terminate the owning process, in that order. -/
def connectorClose (st : ConnectorState) : ConnectorState × List ProcAction :=
  ({ st with out_amqp := [], odb_open := false, terminated := true },
   [.stopOutgoing, .odbClose, .terminateProcess])

/-- Modelled from the spec: the broker-message dispatch loop of
`BaseConnector` (outside this file) delivers a message to its handler only
when `filter` accepts it, and a terminated process receives nothing further. -/
def processMsg (st : ConnectorState) (m : BrokerMsg) : ConnectorState × List ProcAction :=
  if st.terminated then (st, [])
  else if st.filter m then
    match m with
    | .amqpConnectorClose _ => connectorClose st
    | .defAmqpDelete _ => connectorClose st
    | .defAmqpEdit e => (on_broker_pull_msg_DEFINITION_AMQP_EDIT st e, [])
    | .defAmqpChangePassword _ p =>
        (on_broker_pull_msg_DEFINITION_AMQP_CHANGE_PASSWORD st p, [])
    | .defAmqpCreate _ => (st, [])
    | .otherAction => (st, [])
  else (st, [])

/-- Runs a sequence of broker messages through the connector, collecting the
shutdown-path side effects in order. -/
def runMsgs (st : ConnectorState) : List BrokerMsg → ConnectorState × List ProcAction
  | [] => (st, [])
  | m :: rest =>
      let r := processMsg st m
      let r2 := runMsgs r.1 rest
      (r2.1, r.2 ++ r2.2)

/-- Identifies the two message kinds whose handlers run the shutdown path:
`AMQP_CONNECTOR_CLOSE` and `DEFINITION_AMQP_DELETE`. -/
def isShutdownMsg : BrokerMsg → Bool
  | .amqpConnectorClose _ => true
  | .defAmqpDelete _ => true
  | _ => false

/-- A concrete active definition, used to evaluate the embedding on explicit
inputs. -/
def defEx : Definition :=
  { id := 1, name := "crm", host := .pyStr "mq1", port := 5672, vhost := "/zato",
    virtual_host := none, credentials := none, username := "zato",
    password := "p1", heartbeat := 10, frame_max := 131072 }

/-- A concrete connector state with definition id 1 and ODB token "tok". -/
def stEx : ConnectorState :=
  { def_amqp := defEx,
    out_amqp := [(7, { generation := 0, params := amqp_conn_params defEx })],
    channel_amqp := [(9, { generation := 0, params := amqp_conn_params defEx })],
    odb_token := "tok", odb_open := true, terminated := false, recreate_count := 0 }

/-- A concrete edit message that omits the password. -/
def editMsgEx : EditMsg :=
  { id := 1, name := "crm2", host := .pyUnicode "mq2", port := 5673, vhost := "/z2",
    virtual_host := some "/vh", credentials := none, username := "zato2",
    password := none, heartbeat := 20, frame_max := 65536 }

/-- C2: `_keep_connecting` classifies an error as retryable exactly when it is
a `TypeError` or an `EnvironmentError` whose errno lies in the reconnect set
{ENETUNREACH, ENETRESET, ECONNABORTED, ECONNRESET, ETIMEDOUT, ECONNREFUSED,
EHOSTUNREACH}; every other error is fatal. -/
theorem keep_connecting_iff (e : PyError) :
    keep_connecting e = true ↔
      (e = PyError.typeError ∨
        ∃ n, e = PyError.environmentError n ∧ n ∈ reconnect_error_numbers) := by
  cases e with
  | typeError => simp [keep_connecting]
  | environmentError n => simp [keep_connecting]
  | otherError => simp [keep_connecting]

/-- C1 counterexample: a `DEFINITION_AMQP_CREATE` message whose id equals the
active definition's id is nevertheless rejected by `filter` (the action tuple
at line 131 of the source omits `DEFINITION.AMQP_CREATE`), contradicting the
claim that `filter` accepts every `DEFINITION_*` message with a matching id. -/
theorem filter_create_counterexample :
    stEx.def_amqp.id = 1 ∧ stEx.filter (BrokerMsg.defAmqpCreate 1) = false :=
  ⟨rfl, rfl⟩

/-- C1 amended: `filter` accepts a `CONNECTOR_CLOSE` message iff its
`odb_token` equals the connector's ODB token, accepts a
`DEFINITION_AMQP_EDIT`, `DEFINITION_AMQP_DELETE` or
`DEFINITION_AMQP_CHANGE_PASSWORD` message iff its id equals the active
definition's id, and rejects every other message — in particular every
`DEFINITION_AMQP_CREATE` message, whatever its id. -/
theorem filter_spec (st : ConnectorState) (m : BrokerMsg) :
    st.filter m = true ↔
      (match m with
       | .amqpConnectorClose tok => st.odb_token = tok
       | .defAmqpEdit e => st.def_amqp.id = e.id
       | .defAmqpDelete i => st.def_amqp.id = i
       | .defAmqpChangePassword i _ => st.def_amqp.id = i
       | .defAmqpCreate _ => False
       | .otherAction => False) := by
  cases m <;> simp [ConnectorState.filter]

/-- C3: after an edit message that omits the password, the active definition
is exactly the message's fields — host coerced to its canonical string form —
with the previous password carried over. -/
theorem edit_omitted_password (st : ConnectorState) (msg : EditMsg)
    (h : msg.password = none) :
    (on_broker_pull_msg_DEFINITION_AMQP_EDIT st msg).def_amqp =
      { id := msg.id, name := msg.name, host := pyStrFn msg.host, port := msg.port,
        vhost := msg.vhost, virtual_host := msg.virtual_host,
        credentials := msg.credentials, username := msg.username,
        password := st.def_amqp.password, heartbeat := msg.heartbeat,
        frame_max := msg.frame_max } := rfl

/-- C3 witness: the edit theorem evaluated at the concrete state and the
concrete password-less edit message. -/
theorem edit_omitted_password_witness :
    editMsgEx.password = none ∧
      (on_broker_pull_msg_DEFINITION_AMQP_EDIT stEx editMsgEx).def_amqp =
        { id := editMsgEx.id, name := editMsgEx.name, host := pyStrFn editMsgEx.host,
          port := editMsgEx.port, vhost := editMsgEx.vhost,
          virtual_host := editMsgEx.virtual_host, credentials := editMsgEx.credentials,
          username := editMsgEx.username, password := stEx.def_amqp.password,
          heartbeat := editMsgEx.heartbeat, frame_max := editMsgEx.frame_max } :=
  ⟨rfl, edit_omitted_password stEx editMsgEx rfl⟩

/-- C5: the edit handler always restores the pre-edit password over whatever
the message carried, so a password supplied inside an edit message is never
adopted. -/
theorem edit_discards_message_password (st : ConnectorState) (msg : EditMsg) :
    (on_broker_pull_msg_DEFINITION_AMQP_EDIT st msg).def_amqp.password =
      st.def_amqp.password := rfl

/-- C4: after a change-password message, the active definition equals the
previous one with only the password overwritten by the message's password,
the publisher recreation routine has run once more, and every outgoing
registry entry holds a fresh session built from the updated definition. -/
theorem change_password_effect (st : ConnectorState) (pw : String) :
    (on_broker_pull_msg_DEFINITION_AMQP_CHANGE_PASSWORD st pw).def_amqp =
      { st.def_amqp with password := pw } ∧
    (on_broker_pull_msg_DEFINITION_AMQP_CHANGE_PASSWORD st pw).recreate_count =
      st.recreate_count + 1 ∧
    (on_broker_pull_msg_DEFINITION_AMQP_CHANGE_PASSWORD st pw).out_amqp =
      st.out_amqp.map (fun kv => (kv.1,
        { generation := kv.2.generation + 1,
          params := amqp_conn_params { st.def_amqp with password := pw } })) :=
  ⟨rfl, rfl, rfl⟩

/-- C6: neither the edit handler nor the change-password handler touches the
inbound (channel) session registry — its entries after either handler are the
same entries as before. -/
theorem handlers_preserve_inbound_registry (st : ConnectorState) (msg : EditMsg)
    (pw : String) :
    (on_broker_pull_msg_DEFINITION_AMQP_EDIT st msg).channel_amqp = st.channel_amqp ∧
    (on_broker_pull_msg_DEFINITION_AMQP_CHANGE_PASSWORD st pw).channel_amqp =
      st.channel_amqp :=
  ⟨rfl, rfl⟩

/-- C7: `_amqp_conn_params` returns the constructed parameters with only the
heartbeat reassigned after construction: host, port and frame_max come from
the definition, the virtual host is `virtual_host` when present else `vhost`,
the credential pair comes from the `credentials` sub-object when present else
the flat fields, the constructor itself leaves heartbeat at its boolean
default, and the final heartbeat is the definition's integer value. -/
theorem amqp_conn_params_spec (d : Definition) :
    amqp_conn_params d =
      { connectionParametersCtor d.host d.port
          (match d.virtual_host with | some v => v | none => d.vhost)
          (match d.credentials with
            | some c => (c.username, c.password)
            | none => (d.username, d.password))
          d.frame_max with heartbeat := HeartbeatVal.intVal d.heartbeat } ∧
    (connectionParametersCtor d.host d.port d.vhost (d.username, d.password)
        d.frame_max).heartbeat = HeartbeatVal.boolVal false ∧
    (amqp_conn_params d).host = d.host ∧
    (amqp_conn_params d).port = d.port ∧
    (amqp_conn_params d).frame_max = d.frame_max ∧
    (amqp_conn_params d).heartbeat = HeartbeatVal.intVal d.heartbeat :=
  ⟨rfl, rfl, rfl, rfl, rfl, rfl⟩

/-- C8: every broker-message handler's lock trace obeys the fixed discipline —
locks are acquired nested in the order definition, outgoing, channel, released
in reverse, and the outgoing or channel lock is never taken without the
definition lock already held. -/
theorem lock_discipline :
    allHandlerLockTraces.all (fun t => checkLockTrace t []) = true := by decide

/-- C9: `BaseAMQPConnection._close` maps the transport handle, when present,
to one with shutdown requested, leaves a handle-less session untouched, and is
idempotent — a second call leaves the session exactly as the first left it. -/
theorem close_idempotent (s : BaseAMQPConnection) :
    s.closeSession = { s with conn := s.conn.map ConnHandle.close } ∧
    s.closeSession.closeSession = s.closeSession := by
  cases s with
  | mk conn channel =>
    cases conn <;>
      simp [BaseAMQPConnection.closeSession, ConnHandle.close, Option.map]

/-- A terminated process receives no further messages, so running any message
list from a terminated state produces no actions. -/
theorem runMsgs_terminated (msgs : List BrokerMsg) (st : ConnectorState)
    (h : st.terminated = true) : runMsgs st msgs = (st, []) := by
  induction msgs with
  | nil => rfl
  | cons m rest ih => simp [runMsgs, processMsg, h, ih]

/-- Processing an accepted shutdown-kind message from a live state runs
exactly the `_close` path. -/
theorem processMsg_shutdown (st : ConnectorState) (m : BrokerMsg)
    (hterm : st.terminated = false) (hm : isShutdownMsg m = true)
    (hf : st.filter m = true) :
    processMsg st m = connectorClose st := by
  cases m <;> simp_all [processMsg, isShutdownMsg]

/-- Processing any message that is not an accepted shutdown-kind message
produces no shutdown actions, keeps the process live, and preserves the ODB
token and the active definition's id. -/
theorem processMsg_not_shutdown (st : ConnectorState) (m : BrokerMsg)
    (hterm : st.terminated = false)
    (h : ¬(isShutdownMsg m = true ∧ st.filter m = true)) :
    (processMsg st m).2 = [] ∧ (processMsg st m).1.terminated = false ∧
    (processMsg st m).1.odb_token = st.odb_token ∧
    (processMsg st m).1.def_amqp.id = st.def_amqp.id := by
  cases m with
  | amqpConnectorClose tok =>
      have hf : st.filter (.amqpConnectorClose tok) = false := by
        rcases Bool.eq_false_or_eq_true (st.filter (.amqpConnectorClose tok)) with h1 | h1
        · exact absurd ⟨rfl, h1⟩ h
        · exact h1
      simp [processMsg, hterm, hf]
  | defAmqpDelete i =>
      have hf : st.filter (.defAmqpDelete i) = false := by
        rcases Bool.eq_false_or_eq_true (st.filter (.defAmqpDelete i)) with h1 | h1
        · exact absurd ⟨rfl, h1⟩ h
        · exact h1
      simp [processMsg, hterm, hf]
  | defAmqpEdit e =>
      by_cases hf : st.filter (.defAmqpEdit e) = true
      · have hid : st.def_amqp.id = e.id := by
          simpa [ConnectorState.filter] using hf
        simp [processMsg, hterm, hf, on_broker_pull_msg_DEFINITION_AMQP_EDIT,
              recreate_amqp_publisher, hid]
      · rw [Bool.not_eq_true] at hf
        simp [processMsg, hterm, hf]
  | defAmqpChangePassword i pw =>
      by_cases hf : st.filter (.defAmqpChangePassword i pw) = true
      · simp [processMsg, hterm, hf, on_broker_pull_msg_DEFINITION_AMQP_CHANGE_PASSWORD,
              recreate_amqp_publisher]
      · rw [Bool.not_eq_true] at hf
        simp [processMsg, hterm, hf]
  | defAmqpCreate i =>
      simp [processMsg, hterm, ConnectorState.filter]
  | otherAction =>
      simp [processMsg, hterm, ConnectorState.filter]

/-- Acceptance of a shutdown-kind message depends only on the ODB token and
the active definition's id, both of which every handler preserves. -/
theorem filter_shutdown_stable (st st2 : ConnectorState) (m : BrokerMsg)
    (ht : st2.odb_token = st.odb_token) (hi : st2.def_amqp.id = st.def_amqp.id)
    (hm : isShutdownMsg m = true) : st2.filter m = st.filter m := by
  cases m <;> simp_all [ConnectorState.filter, isShutdownMsg]

/-- C10: over any message sequence delivered to a live connector, the
shutdown path runs at most once and always as the ordered action triple —
stop outgoing sessions, close the ODB connection, terminate the process — and
it does run, exactly as that triple, whenever the sequence contains an
accepted `CONNECTOR_CLOSE` or `DEFINITION_AMQP_DELETE` message; repeated
delivery cannot invoke the termination path a second time. -/
theorem shutdown_once (st : ConnectorState) (msgs : List BrokerMsg)
    (h : st.terminated = false) :
    ((runMsgs st msgs).2 = [] ∨
      (runMsgs st msgs).2 =
        [ProcAction.stopOutgoing, ProcAction.odbClose, ProcAction.terminateProcess]) ∧
    ((∃ m ∈ msgs, isShutdownMsg m = true ∧ st.filter m = true) →
      (runMsgs st msgs).2 =
        [ProcAction.stopOutgoing, ProcAction.odbClose, ProcAction.terminateProcess]) := by
  induction msgs generalizing st with
  | nil =>
      refine ⟨Or.inl rfl, ?_⟩
      rintro ⟨m, hm, _⟩
      exact absurd hm (List.not_mem_nil m)
  | cons m rest ih =>
      by_cases hs : isShutdownMsg m = true ∧ st.filter m = true
      · have hp : processMsg st m = connectorClose st :=
          processMsg_shutdown st m h hs.1 hs.2
        have hrun : runMsgs (connectorClose st).1 rest = ((connectorClose st).1, []) :=
          runMsgs_terminated rest _ rfl
        have hgoal : (runMsgs st (m :: rest)).2 =
            (processMsg st m).2 ++ (runMsgs (processMsg st m).1 rest).2 := rfl
        constructor
        · right
          rw [hgoal, hp, hrun]
          rfl
        · intro _
          rw [hgoal, hp, hrun]
          rfl
      · obtain ⟨ha, ht2, htok, hid⟩ := processMsg_not_shutdown st m h hs
        have ih2 := ih (processMsg st m).1 ht2
        have hdec : (runMsgs st (m :: rest)).2 = (runMsgs (processMsg st m).1 rest).2 := by
          simp [runMsgs, ha]
        constructor
        · rw [hdec]
          exact ih2.1
        · rintro ⟨m2, hm2, hsm2, hf2⟩
          rcases List.mem_cons.mp hm2 with heq | hm2r
          · exact absurd ⟨by rw [heq] at hsm2; exact hsm2,
              by rw [heq] at hf2; exact hf2⟩ hs
          · have hf2b : (processMsg st m).1.filter m2 = true := by
              rw [filter_shutdown_stable st (processMsg st m).1 m2 htok hid hsm2]
              exact hf2
            rw [hdec]
            exact ih2.2 ⟨m2, hm2r, hsm2, hf2b⟩

/-- C10 witness: a concrete live connector receiving two copies of an
accepted delete message performs the shutdown triple exactly once. -/
theorem shutdown_once_witness :
    (runMsgs stEx [BrokerMsg.defAmqpDelete 1, BrokerMsg.defAmqpDelete 1]).2 =
      [ProcAction.stopOutgoing, ProcAction.odbClose, ProcAction.terminateProcess] :=
  (shutdown_once stEx [BrokerMsg.defAmqpDelete 1, BrokerMsg.defAmqpDelete 1] rfl).2
    ⟨BrokerMsg.defAmqpDelete 1, by decide, rfl, rfl⟩

end ZatoAMQP
